import Mathlib

/-!
# Shallow embedding of the password-reset backend

The repository is a small Express/Mongoose authentication backend:
registration, login, and a time-boxed password-reset flow.  JavaScript
strings are modelled as `List Char` (`Str`), timestamps (`Date.now()`
milliseconds) as `Nat`, and the Mongo collection of users as a
`List User`.  `bcryptjs` is modelled as an injective tagged encoding of
the plaintext together with the generated salt: `bcrypt.hash(p, salt)`
produces a digest string from which `bcrypt.compare` re-derives and
compares, exactly the contract the code relies on.  Nondeterministic
inputs of the handlers (generated salts, `crypto.randomBytes` tokens,
the current time, fresh `_id`s) are passed as explicit parameters.

The repository contains two divergent route implementations
(`routes/auth.js` variant 1 with only forgot/validate/reset, and
variant 2 with register/login as well); both are embedded, suffixed
`V1` and `V2`, each transcribed from its own source text.
-/

namespace PassReset

/-- JavaScript strings are modelled as lists of characters. -/
abbrev Str := List Char

/-! ## bcryptjs model -/

/-- The salt-and-version block that `bcrypt.hash` embeds in front of the
payload: the literal tag, the generated salt (in unary, one `s` per
unit, standing for the random salt characters), and a terminator.
A digest therefore determines its salt, exactly as a real bcrypt digest
embeds its salt so that `compare` is self-contained. -/
def bsaltBlock (salt : Nat) : Str :=
  '$' :: '2' :: 'b' :: '$' :: (List.replicate salt 's' ++ ['$'])

/-- Model of `bcrypt.hash(p, salt)`: the digest embeds the salt block and
the payload. -/
def bhash (salt : Nat) (p : Str) : Str :=
  bsaltBlock salt ++ p

/-- Recover the embedded salt from a digest (length of the unary salt
run after the four tag characters). -/
def bsaltOf (h : Str) : Nat :=
  ((h.drop 4).takeWhile (fun c => c == 's')).length

/-- Model of `bcrypt.compare(candidate, h)`: re-derive the digest of the
candidate under the digest's own salt and compare; total, never throws. -/
def bcompare (candidate h : Str) : Bool :=
  h == bhash (bsaltOf h) candidate

theorem takeWhile_s_replicate (n : Nat) (p : Str) :
    (List.replicate n 's' ++ '$' :: p).takeWhile (fun c => c == 's')
      = List.replicate n 's' := by
  induction n with
  | zero => simp [List.takeWhile_cons]
  | succ k ih => simp [List.replicate_succ, List.takeWhile_cons, ih]

theorem bsaltOf_bhash (salt : Nat) (p : Str) : bsaltOf (bhash salt p) = salt := by
  simp [bsaltOf, bhash, bsaltBlock, takeWhile_s_replicate]

/-- The functional contract of bcrypt the code relies on: comparing a
candidate against a digest succeeds exactly when the candidate is the
hashed payload. -/
theorem bcompare_bhash (c : Str) (salt : Nat) (p : Str) :
    bcompare c (bhash salt p) = (c == p) := by
  unfold bcompare
  rw [bsaltOf_bhash]
  by_cases h : c = p
  · subst h; simp
  · have hne : bhash salt p ≠ bhash salt c := by
      intro hh
      exact h (List.append_cancel_left hh).symm
    simp [hne, h]

/-- A digest is strictly longer than its payload, hence never equal to
it: a plaintext is never its own digest. -/
theorem bhash_ne_payload (salt : Nat) (p : Str) : bhash salt p ≠ p := by
  intro h
  have hlen : (bhash salt p).length = p.length := by rw [h]
  simp [bhash, bsaltBlock] at hlen
  omega

/-! ## Data model: the `User` document (src/models/User.js) -/

/-- One persisted user document.  `resetPasswordToken` and
`resetPasswordExpire` model the schema's optional `String`/`Date`
fields (`undefined` is `none`); the expiry is a millisecond timestamp. -/
structure User where
  id : Nat
  fullName : Str
  email : Str
  password : Str
  resetPasswordToken : Option Str
  resetPasswordExpire : Option Nat
deriving Repr, DecidableEq

/-! ## JavaScript string helpers used by the handlers -/

/-- Whitespace as removed by `String.prototype.trim` (ASCII subset,
which covers every input of interest). -/
def isWSChar (c : Char) : Bool :=
  c == ' ' || c == '\t' || c == '\n' || c == '\r'

/-- Model of `email.trim()`. -/
def trimStr (s : Str) : Str :=
  ((s.dropWhile isWSChar).reverse.dropWhile isWSChar).reverse

/-- Model of `s.toLowerCase()` (ASCII case mapping, as relevant to emails). -/
def toLowerStr (s : Str) : Str :=
  s.map Char.toLower

/-! ## The document store (Mongo collection of users) -/

/-- Model of `User.findOne({ email: e })`: first document whose stored email
equals the queried string exactly. -/
def findByEmail (db : List User) (e : Str) : Option User :=
  db.find? (fun u => u.email == e)

/-- The filter of
`User.findOne({ resetPasswordToken: token, resetPasswordExpire: { $gt: Date.now() } })`:
the stored token equals the presented one exactly and the stored expiry
is strictly in the future. -/
def tokenLive (now : Nat) (t : Str) (u : User) : Bool :=
  (u.resetPasswordToken == some t) &&
    (match u.resetPasswordExpire with
     | some e => now < e
     | none => false)

/-- Model of `User.findOne` on the token-and-expiry filter. -/
def findByValidResetToken (db : List User) (now : Nat) (t : Str) : Option User :=
  db.find? (tokenLive now t)

/-- Model of `user.save()` after mutating the document returned by `findOne(p)`:
the first document matching `p` is replaced by its updated version,
every other document is untouched. -/
def updateFirst (p : User → Bool) (f : User → User) : List User → List User
  | [] => []
  | u :: us => if p u then f u :: us else u :: updateFirst p f us

/-! ## HTTP responses -/

/-- The observable part of a handler's reply:
`res.status(s).json({ success, message })`. -/
structure Resp where
  status : Nat
  success : Bool
  message : Str
deriving Repr, DecidableEq

/-! ## Password policy transcriptions

The register handler and both reset handlers each contain the literal
condition
`!password || password.length < 8 || !/[A-Z]/.test(password) || !/[a-z]/.test(password) || !/[0-9]/.test(password) || !/[^A-Za-z0-9]/.test(password)`;
each occurrence is transcribed separately so their agreement is a
theorem, not a modelling choice.  The ASCII classes of the regexes
match `Char.isUpper`/`isLower`/`isDigit`. -/

/-- Test of the regex `/[^A-Za-z0-9]/` on a single character. -/
def isSpecialChar (c : Char) : Bool :=
  !(c.isUpper || c.isLower || c.isDigit)

/-- The rejection condition of the register handler (variant 2). -/
def registerPasswordReject (p : Str) : Bool :=
  p.isEmpty || p.length < 8 || !(p.any Char.isUpper) || !(p.any Char.isLower)
    || !(p.any Char.isDigit) || !(p.any isSpecialChar)

/-- The rejection condition of the reset handler, variant 1. -/
def resetPasswordRejectV1 (p : Str) : Bool :=
  p.isEmpty || p.length < 8 || !(p.any Char.isUpper) || !(p.any Char.isLower)
    || !(p.any Char.isDigit) || !(p.any isSpecialChar)

/-- The rejection condition of the reset handler, variant 2. -/
def resetPasswordRejectV2 (p : Str) : Bool :=
  p.isEmpty || p.length < 8 || !(p.any Char.isUpper) || !(p.any Char.isLower)
    || !(p.any Char.isDigit) || !(p.any isSpecialChar)

/-- The shared 400 message of all three occurrences. -/
def policyMsg : Str :=
  "Password must be at least 8 characters long, include uppercase, lowercase, number, and special character".data

/-- The shared generic login failure message. -/
def invalidCredMsg : Str := "Invalid email or password".data

/-- The shared invalid/expired-token message. -/
def invalidTokenMsg : Str := "Invalid or expired token".data

/-! ## Request handlers

Each handler is a function from the collection, the current time and
the request inputs (plus the nondeterministic salt/token/id choices) to
the response and the updated collection.  Handlers that do not write
return only a `Resp`. -/

/-- Handler of `POST /register` (variant 2).  A fresh document is inserted with the
normalized email; the pre-save hook hashes the (modified) password with
the generated salt before persistence.  `newId` is the assigned `_id`. -/
def registerHandler (db : List User) (fullName email password : Str)
    (salt newId : Nat) : Resp × List User :=
  if fullName.isEmpty || (trimStr fullName).length < 2 then
    (⟨400, false, "Name is required".data⟩, db)
  else if registerPasswordReject password then
    (⟨400, false, policyMsg⟩, db)
  else
    let emailLower := toLowerStr (trimStr email)
    match findByEmail db emailLower with
    | some _ => (⟨400, false, "User with this email already exists".data⟩, db)
    | none =>
      let saved : User :=
        { id := newId, fullName := trimStr fullName, email := emailLower,
          password := bhash salt password,
          resetPasswordToken := none, resetPasswordExpire := none }
      (⟨201, true, "User registered successfully".data⟩, db ++ [saved])

/-- Handler of `POST /login` (variant 2).  Read-only. -/
def loginHandler (db : List User) (email password : Str) : Resp :=
  if email.isEmpty || password.isEmpty then
    ⟨400, false, "Email and password are required".data⟩
  else
    match findByEmail db (toLowerStr (trimStr email)) with
    | none => ⟨400, false, invalidCredMsg⟩
    | some u =>
      if bcompare password u.password then
        ⟨200, true, "Login successful".data⟩
      else
        ⟨400, false, invalidCredMsg⟩

/-- The forgot-password write: store the generated token and
`Date.now() + 3600000` on the found user, in one `save()` (the pre-save
hook does not fire: the password is not modified). -/
def setResetFields (tok : Str) (now : Nat) (u : User) : User :=
  { u with resetPasswordToken := some tok,
           resetPasswordExpire := some (now + 3600000) }

/-- Handler of `POST /forgot-password`, variant 1 (the file headed `routes/auth.js`):
a missing user yields `404 "No account found with that email"`.
`tok` is the `crypto.randomBytes(20).toString('hex')` result. -/
def forgotPasswordV1 (db : List User) (now : Nat) (email tok : Str) :
    Resp × List User :=
  if email.isEmpty then
    (⟨400, false, "Valid email is required".data⟩, db)
  else
    let key := toLowerStr email
    match findByEmail db key with
    | none => (⟨404, false, "No account found with that email".data⟩, db)
    | some _ =>
      (⟨200, true, "Password reset email sent if account exists".data⟩,
        updateFirst (fun u => u.email == key) (setResetFields tok now) db)

/-- Handler of `POST /forgot-password`, variant 2: a missing user yields a generic
200 success. -/
def forgotPasswordV2 (db : List User) (now : Nat) (email tok : Str) :
    Resp × List User :=
  if email.isEmpty then
    (⟨400, false, "Valid email is required".data⟩, db)
  else
    let key := toLowerStr email
    match findByEmail db key with
    | none =>
      (⟨200, true, "If an account with that email exists, a reset link will be sent".data⟩, db)
    | some _ =>
      (⟨200, true, "Password reset email sent if account exists".data⟩,
        updateFirst (fun u => u.email == key) (setResetFields tok now) db)

/-- Handler of `GET /reset-password/:token`, variant 1 (has the `!token` guard).
Read-only. -/
def validateResetTokenV1 (db : List User) (now : Nat) (t : Str) : Resp :=
  if t.isEmpty then
    ⟨400, false, "Invalid token".data⟩
  else
    match findByValidResetToken db now t with
    | none => ⟨400, false, invalidTokenMsg⟩
    | some _ => ⟨200, true, "Token is valid".data⟩

/-- Handler of `GET /reset-password/:token`, variant 2 (no `!token` guard).
Read-only. -/
def validateResetTokenV2 (db : List User) (now : Nat) (t : Str) : Resp :=
  match findByValidResetToken db now t with
  | none => ⟨400, false, invalidTokenMsg⟩
  | some _ => ⟨200, true, "Token is valid".data⟩

/-- The successful-reset write of variant 1: the handler itself computes
`bcrypt.hash(password, saltA)`, assigns it together with clearing both
reset fields, and `save()` runs the pre-save hook, which sees a modified
password and hashes the stored string again with `saltB`. -/
def resetWriteV1 (password : Str) (saltA saltB : Nat) (u : User) : User :=
  { u with password := bhash saltB (bhash saltA password),
           resetPasswordToken := none, resetPasswordExpire := none }

/-- The successful-reset write of variant 2: the handler assigns the
plaintext and clears both reset fields; the pre-save hook hashes the
modified password once with the generated salt. -/
def resetWriteV2 (password : Str) (salt : Nat) (u : User) : User :=
  { u with password := bhash salt password,
           resetPasswordToken := none, resetPasswordExpire := none }

/-- Handler of `POST /reset-password/:token`, variant 1. -/
def resetPasswordV1 (db : List User) (now : Nat) (t password : Str)
    (saltA saltB : Nat) : Resp × List User :=
  if t.isEmpty then
    (⟨400, false, "Invalid token".data⟩, db)
  else if resetPasswordRejectV1 password then
    (⟨400, false, policyMsg⟩, db)
  else
    match findByValidResetToken db now t with
    | none => (⟨400, false, invalidTokenMsg⟩, db)
    | some _ =>
      (⟨200, true, "Password has been reset successfully".data⟩,
        updateFirst (tokenLive now t) (resetWriteV1 password saltA saltB) db)

/-- Handler of `POST /reset-password/:token`, variant 2. -/
def resetPasswordV2 (db : List User) (now : Nat) (t password : Str)
    (salt : Nat) : Resp × List User :=
  if resetPasswordRejectV2 password then
    (⟨400, false, policyMsg⟩, db)
  else
    match findByValidResetToken db now t with
    | none => (⟨400, false, invalidTokenMsg⟩, db)
    | some _ =>
      (⟨200, true, "Password has been reset successfully".data⟩,
        updateFirst (tokenLive now t) (resetWriteV2 password salt) db)

/-! ## The terminal error handler (src/middleware/errorHandler.js) -/

/-- The fields of a thrown error the terminal handler inspects. -/
structure JsError where
  code : Option Nat
  statusCode : Option Nat
  message : Str
deriving Repr, DecidableEq

/-- Model of `errorHandler(err, req, res, next)`: a Mongo duplicate-key violation
(`err.code === 11000`) maps to `400 "Email already exists"`; anything
else to `err.statusCode || 500` with `err.message || 'Internal Server
Error'` (JavaScript falsiness: `0` and the empty string fall through to
the defaults). -/
def errorHandler (e : JsError) : Resp :=
  if e.code == some 11000 then
    ⟨400, false, "Email already exists".data⟩
  else
    ⟨(match e.statusCode with
       | some s => if s == 0 then 500 else s
       | none => 500),
     false,
     (if e.message.isEmpty then "Internal Server Error".data else e.message)⟩

/-! ## General lemmas about the store operations -/

/-- Any document in the collection after an `updateFirst` write was
either already there or is the image of a matched document. -/
theorem mem_updateFirst {p : User → Bool} {f : User → User} {l : List User} {v : User}
    (hv : v ∈ updateFirst p f l) :
    v ∈ l ∨ ∃ u, u ∈ l ∧ p u = true ∧ v = f u := by
  induction l with
  | nil => simp [updateFirst] at hv
  | cons x xs ih =>
    by_cases hx : p x = true
    · simp only [updateFirst, if_pos hx] at hv
      rcases List.mem_cons.mp hv with rfl | hvxs
      · exact Or.inr ⟨x, List.mem_cons_self x xs, hx, rfl⟩
      · exact Or.inl (List.mem_cons_of_mem x hvxs)
    · simp only [updateFirst, if_neg hx] at hv
      rcases List.mem_cons.mp hv with rfl | hvxs
      · exact Or.inl (List.mem_cons_self v xs)
      · rcases ih hvxs with h | ⟨u, hu, hpu, hvf⟩
        · exact Or.inl (List.mem_cons_of_mem x h)
        · exact Or.inr ⟨u, List.mem_cons_of_mem x hu, hpu, hvf⟩

/-- If the collection holds at most one document satisfying `q`, a
`findOne(p)`/`save` round-trip whose write erases `q` leaves no document
satisfying `q` (where matching `p` implies `q`). -/
theorem updateFirst_filter_clear (q p : User → Bool) (f : User → User) :
    ∀ (l : List User) (u : User),
      l.find? p = some u →
      (l.filter q).length ≤ 1 →
      (∀ x, p x = true → q x = true) →
      (∀ x, q (f x) = false) →
      ∀ v ∈ updateFirst p f l, q v = false := by
  intro l
  induction l with
  | nil => intro u hfind _ _ _; simp at hfind
  | cons x xs ih =>
    intro u hfind hcount hpq hfq v hv
    by_cases hx : p x = true
    · simp only [updateFirst, if_pos hx] at hv
      rcases List.mem_cons.mp hv with rfl | hvxs
      · exact hfq x
      · have hqx : q x = true := hpq x hx
        have hnil : xs.filter q = [] := by
          rw [List.filter_cons, if_pos hqx, List.length_cons] at hcount
          exact List.length_eq_zero.mp (by omega)
        cases hqv : q v with
        | false => rfl
        | true =>
          exfalso
          have : v ∈ xs.filter q := List.mem_filter.mpr ⟨hvxs, hqv⟩
          rw [hnil] at this
          exact absurd this (List.not_mem_nil v)
    · simp only [updateFirst, if_neg hx] at hv
      have hfind2 : xs.find? p = some u := by
        rwa [List.find?_cons_of_neg xs hx] at hfind
      have hqu : q u = true := hpq u (List.find?_some hfind2)
      have humem : u ∈ xs := List.mem_of_find?_eq_some hfind2
      have hqx : q x = false := by
        cases hqxv : q x with
        | false => rfl
        | true =>
          exfalso
          rw [List.filter_cons, if_pos hqxv, List.length_cons] at hcount
          have humf : u ∈ xs.filter q := List.mem_filter.mpr ⟨humem, hqu⟩
          have hpos : 0 < (xs.filter q).length :=
            List.length_pos.mpr (List.ne_nil_of_mem humf)
          omega
      have hcount2 : (xs.filter q).length ≤ 1 := by
        rw [List.filter_cons] at hcount
        simp [hqx] at hcount
        exact hcount
      rcases List.mem_cons.mp hv with rfl | hvxs
      · exact hqx
      · exact ih u hfind2 hcount2 hpq hfq v hvxs

/-! ## Claim theorems -/

/-- Fixture for the C1 scenario: a user with a live reset token. -/
def userC1 : User :=
  { id := 1, fullName := "Jane Doe".data, email := "jane@test.com".data,
    password := bhash 7 "Str0ng!Pass".data,
    resetPasswordToken := some "4f3c2e1d".data,
    resetPasswordExpire := some 7200000 }

/-- C1: the claim fails on the variant-1 reset handler.  With a valid
unexpired token and the policy-satisfying password `NewStr0ng!1`, the
handler answers 200, but the handler bcrypt-hashes the password itself
and the model's pre-save hook hashes the resulting digest string again,
so the persisted hash verifies the intermediate digest, not the
plaintext: a subsequent login with the new password fails (and so does
one with the old password — the account is locked out).  The variant-2
handler, which assigns the plaintext and lets the hook hash once,
behaves as the claim states. -/
theorem C1_resetV1_double_hash_lockout :
    (resetPasswordV1 [userC1] 3600000 "4f3c2e1d".data "NewStr0ng!1".data 3 5).1
      = ⟨200, true, "Password has been reset successfully".data⟩
  ∧ loginHandler (resetPasswordV1 [userC1] 3600000 "4f3c2e1d".data "NewStr0ng!1".data 3 5).2
      "jane@test.com".data "NewStr0ng!1".data = ⟨400, false, invalidCredMsg⟩
  ∧ loginHandler (resetPasswordV1 [userC1] 3600000 "4f3c2e1d".data "NewStr0ng!1".data 3 5).2
      "jane@test.com".data "Str0ng!Pass".data = ⟨400, false, invalidCredMsg⟩
  ∧ loginHandler (resetPasswordV2 [userC1] 3600000 "4f3c2e1d".data "NewStr0ng!1".data 5).2
      "jane@test.com".data "NewStr0ng!1".data = ⟨200, true, "Login successful".data⟩
  ∧ loginHandler (resetPasswordV2 [userC1] 3600000 "4f3c2e1d".data "NewStr0ng!1".data 5).2
      "jane@test.com".data "Str0ng!Pass".data = ⟨400, false, invalidCredMsg⟩ := by
  refine ⟨by decide, by decide, by decide, by decide, by decide⟩

/-- Fixture for the C2 scenario: one registered user. -/
def userC2 : User :=
  { id := 2, fullName := "Bob".data, email := "bob@x.com".data,
    password := bhash 3 "Valid123!".data,
    resetPasswordToken := none, resetPasswordExpire := none }

/-- C2: the claim fails on the variant-1 forgot-password handler, whose
own comment says not to reveal non-existence and which then answers
`404 "No account found with that email"` for an unknown email while an
existing email gets `200` — status and success flag differ, an
enumeration signal.  The variant-2 handler answers 200 with
`success:true` in both cases, as the claim states. -/
theorem C2_forgotV1_enumeration_signal :
    (forgotPasswordV1 [userC2] 0 "ghost@x.com".data "tk".data).1
      = ⟨404, false, "No account found with that email".data⟩
  ∧ (forgotPasswordV1 [userC2] 0 "bob@x.com".data "tk".data).1
      = ⟨200, true, "Password reset email sent if account exists".data⟩
  ∧ (forgotPasswordV1 [userC2] 0 "ghost@x.com".data "tk".data).1.status
      ≠ (forgotPasswordV1 [userC2] 0 "bob@x.com".data "tk".data).1.status
  ∧ (forgotPasswordV2 [userC2] 0 "ghost@x.com".data "tk".data).1.status
      = (forgotPasswordV2 [userC2] 0 "bob@x.com".data "tk".data).1.status
  ∧ (forgotPasswordV2 [userC2] 0 "ghost@x.com".data "tk".data).1.success
      = (forgotPasswordV2 [userC2] 0 "bob@x.com".data "tk".data).1.success := by
  refine ⟨by decide, by decide, by decide, by decide, by decide⟩

/-- Unfolding of the Mongo token filter into the claim's wording. -/
theorem tokenLive_iff (now : Nat) (t : Str) (u : User) :
    tokenLive now t u = true ↔
      u.resetPasswordToken = some t ∧
        ∃ e, u.resetPasswordExpire = some e ∧ now < e := by
  cases hE : u.resetPasswordExpire with
  | none => simp [tokenLive, hE]
  | some e => simp [tokenLive, hE]

/-- Acceptance of the variant-2 validate handler is exactly the
existence of a live matching token. -/
theorem validateV2_accepts_iff (db : List User) (now : Nat) (t : Str) :
    (validateResetTokenV2 db now t).status = 200 ↔
      ∃ u ∈ db, tokenLive now t u = true := by
  rw [← List.find?_isSome]
  unfold validateResetTokenV2 findByValidResetToken
  cases hF : List.find? (tokenLive now t) db <;> simp [hF]

/-- Acceptance of the variant-1 validate handler, for the nonempty
tokens a matched route can present. -/
theorem validateV1_accepts_iff (db : List User) (now : Nat) (t : Str)
    (ht : t ≠ []) :
    (validateResetTokenV1 db now t).status = 200 ↔
      ∃ u ∈ db, tokenLive now t u = true := by
  have hie : t.isEmpty = false := by
    cases t with
    | nil => exact absurd rfl ht
    | cons a as => rfl
  rw [← List.find?_isSome]
  unfold validateResetTokenV1 findByValidResetToken
  rw [hie]
  cases hF : List.find? (tokenLive now t) db <;> simp [hF]

/-- Every document after a forgot-password write is either untouched or
carries the fresh token with expiry exactly one hour after `now`. -/
theorem forgotV2_write_mem (db : List User) (now : Nat) (email tok : Str) :
    ∀ v ∈ (forgotPasswordV2 db now email tok).2,
      v ∈ db ∨ (v.resetPasswordToken = some tok ∧
                 v.resetPasswordExpire = some (now + 3600000)) := by
  intro v hv
  simp only [forgotPasswordV2] at hv
  split at hv
  · exact Or.inl hv
  · split at hv
    · exact Or.inl hv
    · rcases mem_updateFirst hv with h | ⟨u, _, _, rfl⟩
      · exact Or.inl h
      · exact Or.inr ⟨rfl, rfl⟩

/-- Same fact for the variant-1 forgot-password write. -/
theorem forgotV1_write_mem (db : List User) (now : Nat) (email tok : Str) :
    ∀ v ∈ (forgotPasswordV1 db now email tok).2,
      v ∈ db ∨ (v.resetPasswordToken = some tok ∧
                 v.resetPasswordExpire = some (now + 3600000)) := by
  intro v hv
  simp only [forgotPasswordV1] at hv
  split at hv
  · exact Or.inl hv
  · split at hv
    · exact Or.inl hv
    · rcases mem_updateFirst hv with h | ⟨u, _, _, rfl⟩
      · exact Or.inl h
      · exact Or.inr ⟨rfl, rfl⟩

/-- C3: a presented token is accepted (by either variant of the
validate handler, and by the variant-2 reset handler under a
policy-passing password) exactly when some persisted user's stored
`resetPasswordToken` equals it and that user's `resetPasswordExpire` is
strictly in the future; every rejection is the single
`400 "Invalid or expired token"` response; and both forgot-password
variants persist an expiry of exactly issuance time plus one hour
(3600000 ms) alongside the fresh token. -/
theorem C3_token_accepted_iff_live (db : List User) (now : Nat)
    (t email tok p : Str) (salt : Nat)
    (ht : t ≠ []) (hp : resetPasswordRejectV2 p = false) :
    ((validateResetTokenV1 db now t).status = 200 ↔
       ∃ u ∈ db, u.resetPasswordToken = some t ∧
         ∃ e, u.resetPasswordExpire = some e ∧ now < e)
  ∧ ((validateResetTokenV2 db now t).status = 200 ↔
       ∃ u ∈ db, u.resetPasswordToken = some t ∧
         ∃ e, u.resetPasswordExpire = some e ∧ now < e)
  ∧ ((resetPasswordV2 db now t p salt).1.status = 200 ↔
       ∃ u ∈ db, u.resetPasswordToken = some t ∧
         ∃ e, u.resetPasswordExpire = some e ∧ now < e)
  ∧ ((validateResetTokenV1 db now t).status ≠ 200 →
       validateResetTokenV1 db now t = ⟨400, false, invalidTokenMsg⟩)
  ∧ ((validateResetTokenV2 db now t).status ≠ 200 →
       validateResetTokenV2 db now t = ⟨400, false, invalidTokenMsg⟩)
  ∧ ((resetPasswordV2 db now t p salt).1.status ≠ 200 →
       (resetPasswordV2 db now t p salt).1 = ⟨400, false, invalidTokenMsg⟩)
  ∧ (∀ v ∈ (forgotPasswordV1 db now email tok).2,
       v ∈ db ∨ (v.resetPasswordToken = some tok ∧
                  v.resetPasswordExpire = some (now + 3600000)))
  ∧ (∀ v ∈ (forgotPasswordV2 db now email tok).2,
       v ∈ db ∨ (v.resetPasswordToken = some tok ∧
                  v.resetPasswordExpire = some (now + 3600000))) := by
  have hie : t.isEmpty = false := by
    cases t with
    | nil => exact absurd rfl ht
    | cons a as => rfl
  refine ⟨?_, ?_, ?_, ?_, ?_, ?_, forgotV1_write_mem db now email tok,
          forgotV2_write_mem db now email tok⟩
  · rw [validateV1_accepts_iff db now t ht]
    constructor
    · rintro ⟨u, hu, hl⟩; exact ⟨u, hu, (tokenLive_iff now t u).mp hl⟩
    · rintro ⟨u, hu, hl⟩; exact ⟨u, hu, (tokenLive_iff now t u).mpr hl⟩
  · rw [validateV2_accepts_iff db now t]
    constructor
    · rintro ⟨u, hu, hl⟩; exact ⟨u, hu, (tokenLive_iff now t u).mp hl⟩
    · rintro ⟨u, hu, hl⟩; exact ⟨u, hu, (tokenLive_iff now t u).mpr hl⟩
  · have : (resetPasswordV2 db now t p salt).1.status = 200 ↔
        ∃ u ∈ db, tokenLive now t u = true := by
      rw [← List.find?_isSome]
      unfold resetPasswordV2 findByValidResetToken
      rw [hp]
      cases hF : List.find? (tokenLive now t) db <;> simp [hF]
    rw [this]
    constructor
    · rintro ⟨u, hu, hl⟩; exact ⟨u, hu, (tokenLive_iff now t u).mp hl⟩
    · rintro ⟨u, hu, hl⟩; exact ⟨u, hu, (tokenLive_iff now t u).mpr hl⟩
  · unfold validateResetTokenV1
    rw [hie]
    cases hF : findByValidResetToken db now t with
    | none => intro _; rfl
    | some u => intro h; exact absurd rfl h
  · unfold validateResetTokenV2
    cases hF : findByValidResetToken db now t with
    | none => intro _; rfl
    | some u => intro h; exact absurd rfl h
  · unfold resetPasswordV2
    rw [hp]
    cases hF : findByValidResetToken db now t with
    | none => intro _; rfl
    | some u => intro h; exact absurd rfl h

/-- Shared concrete fixture: a user with an outstanding reset token
(`"tk"`, expiring at 100). -/
def wUser : User :=
  { id := 1, fullName := "Jane Doe".data, email := "jane@test.com".data,
    password := bhash 4 "Str0ng!Pass".data,
    resetPasswordToken := some "tk".data, resetPasswordExpire := some 100 }

/-- Shared concrete fixture collection. -/
def wDb : List User := [wUser]

/-- Witness for C3 at the fixture collection, time 50 and token `"tk"`. -/
theorem C3_token_accepted_iff_live_witness :
    (("tk".data : Str) ≠ [] ∧ resetPasswordRejectV2 "NewStr0ng!1".data = false)
  ∧ (((validateResetTokenV1 wDb 50 "tk".data).status = 200 ↔
       ∃ u ∈ wDb, u.resetPasswordToken = some "tk".data ∧
         ∃ e, u.resetPasswordExpire = some e ∧ 50 < e)
   ∧ ((validateResetTokenV2 wDb 50 "tk".data).status = 200 ↔
       ∃ u ∈ wDb, u.resetPasswordToken = some "tk".data ∧
         ∃ e, u.resetPasswordExpire = some e ∧ 50 < e)
   ∧ ((resetPasswordV2 wDb 50 "tk".data "NewStr0ng!1".data 5).1.status = 200 ↔
       ∃ u ∈ wDb, u.resetPasswordToken = some "tk".data ∧
         ∃ e, u.resetPasswordExpire = some e ∧ 50 < e)
   ∧ ((validateResetTokenV1 wDb 50 "tk".data).status ≠ 200 →
       validateResetTokenV1 wDb 50 "tk".data = ⟨400, false, invalidTokenMsg⟩)
   ∧ ((validateResetTokenV2 wDb 50 "tk".data).status ≠ 200 →
       validateResetTokenV2 wDb 50 "tk".data = ⟨400, false, invalidTokenMsg⟩)
   ∧ ((resetPasswordV2 wDb 50 "tk".data "NewStr0ng!1".data 5).1.status ≠ 200 →
       (resetPasswordV2 wDb 50 "tk".data "NewStr0ng!1".data 5).1
         = ⟨400, false, invalidTokenMsg⟩)
   ∧ (∀ v ∈ (forgotPasswordV1 wDb 50 "jane@test.com".data "tk2".data).2,
       v ∈ wDb ∨ (v.resetPasswordToken = some "tk2".data ∧
                   v.resetPasswordExpire = some (50 + 3600000)))
   ∧ (∀ v ∈ (forgotPasswordV2 wDb 50 "jane@test.com".data "tk2".data).2,
       v ∈ wDb ∨ (v.resetPasswordToken = some "tk2".data ∧
                   v.resetPasswordExpire = some (50 + 3600000)))) :=
  ⟨⟨by decide, by decide⟩,
   C3_token_accepted_iff_live wDb 50 "tk".data "jane@test.com".data
     "tk2".data "NewStr0ng!1".data 5 (by decide) (by decide)⟩

/-- C4: at most one acceptance per token.  If the collection holds at
most one document carrying the presented token (true of every reachable
state: tokens are fresh random values and each user holds at most one)
and a variant-2 reset succeeds, then the reset write — a single
`save()` — simultaneously replaced the password hash and cleared both
`resetPasswordToken` and `resetPasswordExpire`, no persisted document
carries the token any more, and presenting the same token again to
either validate handler or to the reset handler is rejected. -/
theorem C4_token_single_use (db : List User) (now now2 : Nat) (t p : Str)
    (salt salt2 : Nat)
    (hcount : (db.filter (fun v => v.resetPasswordToken == some t)).length ≤ 1)
    (hok : (resetPasswordV2 db now t p salt).1.status = 200) :
    (∀ x : User, (resetWriteV2 p salt x).resetPasswordToken = none ∧
                 (resetWriteV2 p salt x).resetPasswordExpire = none ∧
                 (resetWriteV2 p salt x).password = bhash salt p)
  ∧ (∀ v ∈ (resetPasswordV2 db now t p salt).2, v.resetPasswordToken ≠ some t)
  ∧ validateResetTokenV2 (resetPasswordV2 db now t p salt).2 now2 t
      = ⟨400, false, invalidTokenMsg⟩
  ∧ (validateResetTokenV1 (resetPasswordV2 db now t p salt).2 now2 t).status = 400
  ∧ (resetPasswordV2 (resetPasswordV2 db now t p salt).2 now2 t p salt2).1
      = ⟨400, false, invalidTokenMsg⟩ := by
  have hrej : resetPasswordRejectV2 p = false := by
    cases hr : resetPasswordRejectV2 p with
    | false => rfl
    | true => simp [resetPasswordV2, hr] at hok
  obtain ⟨u, hF⟩ : ∃ u, findByValidResetToken db now t = some u := by
    cases hF : findByValidResetToken db now t with
    | none => simp [resetPasswordV2, hrej, hF] at hok
    | some u => exact ⟨u, rfl⟩
  have hdb2 : (resetPasswordV2 db now t p salt).2
      = updateFirst (tokenLive now t) (resetWriteV2 p salt) db := by
    simp [resetPasswordV2, hrej, hF]
  have hclear : ∀ v ∈ (resetPasswordV2 db now t p salt).2,
      (v.resetPasswordToken == some t) = false := by
    rw [hdb2]
    exact updateFirst_filter_clear _ _ _ db u hF hcount
      (fun x hx => by
        unfold tokenLive at hx
        rw [Bool.and_eq_true] at hx
        exact hx.1)
      (fun x => by simp [resetWriteV2])
  have hdead : ∀ v ∈ (resetPasswordV2 db now t p salt).2,
      tokenLive now2 t v = false := by
    intro v hv
    unfold tokenLive
    rw [hclear v hv, Bool.false_and]
  have hnone : findByValidResetToken (resetPasswordV2 db now t p salt).2 now2 t
      = none := by
    apply List.find?_eq_none.mpr
    intro x hx
    rw [hdead x hx]
    exact Bool.false_ne_true
  refine ⟨fun x => ⟨rfl, rfl, rfl⟩, ?_, ?_, ?_, ?_⟩
  · intro v hv
    have := hclear v hv
    simpa using this
  · unfold validateResetTokenV2
    rw [hnone]
  · unfold validateResetTokenV1
    by_cases hte : t.isEmpty = true
    · rw [if_pos hte]
    · rw [if_neg hte, hnone]
  · have h2 : resetPasswordV2 (resetPasswordV2 db now t p salt).2 now2 t p salt2
        = (⟨400, false, invalidTokenMsg⟩, (resetPasswordV2 db now t p salt).2) := by
      generalize hgen : (resetPasswordV2 db now t p salt).2 = db2 at hnone ⊢
      unfold resetPasswordV2
      rw [hrej, hnone]
      rfl
    rw [h2]

/-- Witness for C4 at the fixture collection, time 50, token `"tk"`. -/
theorem C4_token_single_use_witness :
    ((wDb.filter (fun v => v.resetPasswordToken == some "tk".data)).length ≤ 1
      ∧ (resetPasswordV2 wDb 50 "tk".data "NewStr0ng!1".data 5).1.status = 200)
  ∧ ((∀ x : User,
        (resetWriteV2 "NewStr0ng!1".data 5 x).resetPasswordToken = none ∧
        (resetWriteV2 "NewStr0ng!1".data 5 x).resetPasswordExpire = none ∧
        (resetWriteV2 "NewStr0ng!1".data 5 x).password = bhash 5 "NewStr0ng!1".data)
   ∧ (∀ v ∈ (resetPasswordV2 wDb 50 "tk".data "NewStr0ng!1".data 5).2,
        v.resetPasswordToken ≠ some "tk".data)
   ∧ validateResetTokenV2 (resetPasswordV2 wDb 50 "tk".data "NewStr0ng!1".data 5).2 60 "tk".data
        = ⟨400, false, invalidTokenMsg⟩
   ∧ (validateResetTokenV1 (resetPasswordV2 wDb 50 "tk".data "NewStr0ng!1".data 5).2 60 "tk".data).status = 400
   ∧ (resetPasswordV2 (resetPasswordV2 wDb 50 "tk".data "NewStr0ng!1".data 5).2 60 "tk".data "NewStr0ng!1".data 6).1
        = ⟨400, false, invalidTokenMsg⟩) :=
  ⟨⟨by decide, by decide⟩,
   C4_token_single_use wDb 50 60 "tk".data "NewStr0ng!1".data 5 6
     (by decide) (by decide)⟩

/-- The rejection condition, negated, is exactly the spec's four
requirements plus the length bound. -/
theorem registerPasswordReject_eq_false_iff (p : Str) :
    registerPasswordReject p = false ↔
      (8 ≤ p.length ∧ (∃ c ∈ p, c.isUpper = true) ∧ (∃ c ∈ p, c.isLower = true)
        ∧ (∃ c ∈ p, c.isDigit = true) ∧ (∃ c ∈ p, isSpecialChar c = true)) := by
  simp only [registerPasswordReject, Bool.or_eq_false_iff, Bool.not_eq_false',
    List.any_eq_true, decide_eq_false_iff_not, Nat.not_lt]
  constructor
  · intro h
    tauto
  · intro h
    have h8 := h.1
    have hne : p.isEmpty = false := by
      cases p with
      | nil => simp at h8
      | cons a as => rfl
    tauto

/-- C5: the three textual occurrences of the password check (register,
reset variant 1, reset variant 2) are the same predicate; a password
passes exactly when its length is at least 8 and it contains an
uppercase ASCII letter, a lowercase ASCII letter, a digit and a
character outside `[A-Za-z0-9]`; and every violating password draws the
single descriptive 400 error from each of the three handlers (given
that the earlier checks of the handler pass: a well-formed name for
register, a nonempty token for reset variant 1). -/
theorem C5_password_policy (db : List User) (now : Nat)
    (p fullName email t : Str) (salt saltB newId : Nat)
    (hname : (fullName.isEmpty || decide ((trimStr fullName).length < 2)) = false)
    (ht : t ≠ []) :
    registerPasswordReject p = resetPasswordRejectV1 p
  ∧ registerPasswordReject p = resetPasswordRejectV2 p
  ∧ (registerPasswordReject p = false ↔
      (8 ≤ p.length ∧ (∃ c ∈ p, c.isUpper = true) ∧ (∃ c ∈ p, c.isLower = true)
        ∧ (∃ c ∈ p, c.isDigit = true) ∧ (∃ c ∈ p, isSpecialChar c = true)))
  ∧ (registerPasswordReject p = true →
      registerHandler db fullName email p salt newId = (⟨400, false, policyMsg⟩, db))
  ∧ (resetPasswordRejectV1 p = true →
      resetPasswordV1 db now t p salt saltB = (⟨400, false, policyMsg⟩, db))
  ∧ (resetPasswordRejectV2 p = true →
      resetPasswordV2 db now t p salt = (⟨400, false, policyMsg⟩, db)) := by
  have hie : t.isEmpty = false := by
    cases t with
    | nil => exact absurd rfl ht
    | cons a as => rfl
  refine ⟨rfl, rfl, registerPasswordReject_eq_false_iff p, ?_, ?_, ?_⟩
  · intro hrej
    unfold registerHandler
    rw [hname, hrej]
    rfl
  · intro hrej
    unfold resetPasswordV1
    rw [hie, hrej]
    rfl
  · intro hrej
    unfold resetPasswordV2
    rw [hrej]
    rfl

/-- Witness for C5 at the violating password `"short1!"` (length 7). -/
theorem C5_password_policy_witness :
    (("Jane Doe".data.isEmpty
        || decide ((trimStr "Jane Doe".data).length < 2)) = false
      ∧ ("tk".data : Str) ≠ [])
  ∧ (registerPasswordReject "short1!".data = resetPasswordRejectV1 "short1!".data
   ∧ registerPasswordReject "short1!".data = resetPasswordRejectV2 "short1!".data
   ∧ (registerPasswordReject "short1!".data = false ↔
       (8 ≤ "short1!".data.length
         ∧ (∃ c ∈ "short1!".data, c.isUpper = true)
         ∧ (∃ c ∈ "short1!".data, c.isLower = true)
         ∧ (∃ c ∈ "short1!".data, c.isDigit = true)
         ∧ (∃ c ∈ "short1!".data, isSpecialChar c = true)))
   ∧ (registerPasswordReject "short1!".data = true →
       registerHandler wDb "Jane Doe".data "jane@test.com".data "short1!".data 4 2
         = (⟨400, false, policyMsg⟩, wDb))
   ∧ (resetPasswordRejectV1 "short1!".data = true →
       resetPasswordV1 wDb 50 "tk".data "short1!".data 4 5
         = (⟨400, false, policyMsg⟩, wDb))
   ∧ (resetPasswordRejectV2 "short1!".data = true →
       resetPasswordV2 wDb 50 "tk".data "short1!".data 4
         = (⟨400, false, policyMsg⟩, wDb))) :=
  ⟨⟨by decide, by decide⟩,
   C5_password_policy wDb 50 "short1!".data "Jane Doe".data
     "jane@test.com".data "tk".data 4 5 2 (by decide) (by decide)⟩

/-- C6: with both fields present, a login that fails because the
normalized email matches no user and a login that fails because the
matched user's password verification fails produce literally the same
response: `400`, `success:false`, `"Invalid email or password"`. -/
theorem C6_login_failure_indistinguishable (db1 db2 : List User)
    (e1 p1 e2 p2 : Str)
    (h1e : e1 ≠ []) (h1p : p1 ≠ []) (h2e : e2 ≠ []) (h2p : p2 ≠ [])
    (habs : findByEmail db1 (toLowerStr (trimStr e1)) = none)
    (hex : (findByEmail db2 (toLowerStr (trimStr e2))).isSome = true)
    (hver : ∀ u ∈ db2, bcompare p2 u.password = false) :
    loginHandler db1 e1 p1 = loginHandler db2 e2 p2
  ∧ loginHandler db1 e1 p1 = ⟨400, false, invalidCredMsg⟩ := by
  have h1ie : e1.isEmpty = false := by
    cases e1 with
    | nil => exact absurd rfl h1e
    | cons a as => rfl
  have h1pe : p1.isEmpty = false := by
    cases p1 with
    | nil => exact absurd rfl h1p
    | cons a as => rfl
  have h2ie : e2.isEmpty = false := by
    cases e2 with
    | nil => exact absurd rfl h2e
    | cons a as => rfl
  have h2pe : p2.isEmpty = false := by
    cases p2 with
    | nil => exact absurd rfl h2p
    | cons a as => rfl
  obtain ⟨u, hu⟩ := Option.isSome_iff_exists.mp hex
  have humem : u ∈ db2 := List.mem_of_find?_eq_some hu
  have l1 : loginHandler db1 e1 p1 = ⟨400, false, invalidCredMsg⟩ := by
    unfold loginHandler
    rw [h1ie, h1pe, habs]
    rfl
  have l2 : loginHandler db2 e2 p2 = ⟨400, false, invalidCredMsg⟩ := by
    unfold loginHandler
    rw [h2ie, h2pe, hu]
    simp [hver u humem]
  exact ⟨l1.trans l2.symm, l1⟩

/-- Witness for C6: empty collection versus the fixture user with a
wrong password. -/
theorem C6_login_failure_indistinguishable_witness :
    (("ghost@x.com".data : Str) ≠ [] ∧ ("Str0ng!Pass".data : Str) ≠ []
      ∧ ("jane@test.com".data : Str) ≠ [] ∧ ("WrongPass9#".data : Str) ≠ []
      ∧ findByEmail [] (toLowerStr (trimStr "ghost@x.com".data)) = none
      ∧ (findByEmail wDb (toLowerStr (trimStr "jane@test.com".data))).isSome = true
      ∧ (∀ u ∈ wDb, bcompare "WrongPass9#".data u.password = false))
  ∧ (loginHandler [] "ghost@x.com".data "Str0ng!Pass".data
       = loginHandler wDb "jane@test.com".data "WrongPass9#".data
   ∧ loginHandler [] "ghost@x.com".data "Str0ng!Pass".data
       = ⟨400, false, invalidCredMsg⟩) :=
  ⟨⟨by decide, by decide, by decide, by decide, by decide, by decide, by decide⟩,
   C6_login_failure_indistinguishable [] wDb "ghost@x.com".data
     "Str0ng!Pass".data "jane@test.com".data "WrongPass9#".data
     (by decide) (by decide) (by decide) (by decide)
     (by decide) (by decide) (by decide)⟩

/-- Fixture for the C7 counterexample: a stored, normalized email. -/
def userC7 : User :=
  { id := 3, fullName := "Alice".data, email := "a@x.com".data,
    password := bhash 3 "Valid123!".data,
    resetPasswordToken := none, resetPasswordExpire := none }

/-- C7 counterexample: the submitted email `" A@x.com"` (leading
whitespace) normalizes — trimmed and lowercased — to the stored email
`"a@x.com"`, and login does resolve it; but both forgot-password
handlers, which only lowercase without trimming, fail to find the user:
variant 2 answers through its user-absent branch and persists no token,
variant 1 answers 404.  So not every handler lookup matches on the
normalized (trimmed, lowercased) form, refuting the claim. -/
theorem C7_forgot_whitespace_counterexample :
    toLowerStr (trimStr " A@x.com".data) = userC7.email
  ∧ (loginHandler [userC7] " A@x.com".data "Valid123!".data).status = 200
  ∧ forgotPasswordV2 [userC7] 5 " A@x.com".data "tk".data
      = (⟨200, true, "If an account with that email exists, a reset link will be sent".data⟩,
         [userC7])
  ∧ (forgotPasswordV1 [userC7] 5 " A@x.com".data "tk".data).1.status = 404
  ∧ (∀ v ∈ (forgotPasswordV2 [userC7] 5 " A@x.com".data "tk".data).2,
       v.resetPasswordToken = none) := by
  refine ⟨by decide, by decide, by decide, by decide, by decide⟩

/-- The lowercase map preserves emptiness. -/
theorem toLowerStr_isEmpty (s : Str) : (toLowerStr s).isEmpty = s.isEmpty := by
  cases s <;> rfl

/-- C7 amended: register's duplicate check and login look up the
trimmed-and-lowercased email, while both forgot-password handlers look
up the lowercased but untrimmed email.  Hence case variants of an email
behave identically in every handler, and variants differing in
surrounding whitespace behave identically in login and register, but
not necessarily in forgot-password. -/
theorem C7_lookup_normalization_amended (db : List User) (now : Nat)
    (e1 e2 f1 f2 tok pw fn : Str) (salt newId : Nat)
    (hcase : toLowerStr e1 = toLowerStr e2)
    (hnorm : toLowerStr (trimStr f1) = toLowerStr (trimStr f2))
    (hemp : f1.isEmpty = f2.isEmpty) :
    forgotPasswordV1 db now e1 tok = forgotPasswordV1 db now e2 tok
  ∧ forgotPasswordV2 db now e1 tok = forgotPasswordV2 db now e2 tok
  ∧ loginHandler db f1 pw = loginHandler db f2 pw
  ∧ registerHandler db fn f1 pw salt newId
      = registerHandler db fn f2 pw salt newId := by
  have hieq : e1.isEmpty = e2.isEmpty := by
    rw [← toLowerStr_isEmpty, hcase, toLowerStr_isEmpty]
  refine ⟨?_, ?_, ?_, ?_⟩
  · simp only [forgotPasswordV1]
    rw [hieq, hcase]
  · simp only [forgotPasswordV2]
    rw [hieq, hcase]
  · simp only [loginHandler]
    rw [hemp, hnorm]
  · simp only [registerHandler]
    rw [hnorm]

/-- Witness for C7's amended statement: a case variant for
forgot-password, a whitespace-and-case variant for login/register. -/
theorem C7_lookup_normalization_amended_witness :
    (toLowerStr "A@X.com".data = toLowerStr "a@x.com".data
      ∧ toLowerStr (trimStr " Jane@Test.com ".data)
          = toLowerStr (trimStr "jane@TEST.com".data)
      ∧ (" Jane@Test.com ".data : Str).isEmpty = ("jane@TEST.com".data : Str).isEmpty)
  ∧ (forgotPasswordV1 wDb 50 "A@X.com".data "tk2".data
       = forgotPasswordV1 wDb 50 "a@x.com".data "tk2".data
   ∧ forgotPasswordV2 wDb 50 "A@X.com".data "tk2".data
       = forgotPasswordV2 wDb 50 "a@x.com".data "tk2".data
   ∧ loginHandler wDb " Jane@Test.com ".data "Str0ng!Pass".data
       = loginHandler wDb "jane@TEST.com".data "Str0ng!Pass".data
   ∧ registerHandler wDb "Jane Doe".data " Jane@Test.com ".data "Str0ng!Pass".data 4 7
       = registerHandler wDb "Jane Doe".data "jane@TEST.com".data "Str0ng!Pass".data 4 7) :=
  ⟨⟨by decide, by decide, by decide⟩,
   C7_lookup_normalization_amended wDb 50 "A@X.com".data "a@x.com".data
     " Jane@Test.com ".data "jane@TEST.com".data "tk2".data
     "Str0ng!Pass".data "Jane Doe".data 4 7
     (by decide) (by decide) (by decide)⟩

/-- C8: after a successful registration, registering again with any
case-or-whitespace variant of the same email fails with a 400 and
leaves the collection unchanged (here through the handler's duplicate
check; the schema's `unique:true` index backs the race-window), and the
terminal error handler maps every storage-level duplicate-key violation
(`code === 11000`), from whichever path, to
`400 "Email already exists"`. -/
theorem C8_duplicate_email_rejected (db : List User)
    (fn e pw fn2 e2 pw2 : Str) (salt newId salt2 newId2 : Nat) (err : JsError)
    (hok : (registerHandler db fn e pw salt newId).1.status = 201)
    (hcase : toLowerStr (trimStr e2) = toLowerStr (trimStr e))
    (hname2 : (fn2.isEmpty || decide ((trimStr fn2).length < 2)) = false)
    (hpw2 : registerPasswordReject pw2 = false) :
    registerHandler (registerHandler db fn e pw salt newId).2 fn2 e2 pw2 salt2 newId2
      = (⟨400, false, "User with this email already exists".data⟩,
         (registerHandler db fn e pw salt newId).2)
  ∧ (err.code = some 11000 →
      errorHandler err = ⟨400, false, "Email already exists".data⟩) := by
  have hname : (fn.isEmpty || decide ((trimStr fn).length < 2)) = false := by
    cases hc : (fn.isEmpty || decide ((trimStr fn).length < 2)) with
    | false => rfl
    | true => simp [registerHandler, hc] at hok
  have hrej : registerPasswordReject pw = false := by
    cases hc : registerPasswordReject pw with
    | false => rfl
    | true => simp [registerHandler, hname, hc] at hok
  have hfind : findByEmail db (toLowerStr (trimStr e)) = none := by
    cases hc : findByEmail db (toLowerStr (trimStr e)) with
    | none => rfl
    | some u => simp [registerHandler, hname, hrej, hc] at hok
  have hsnd : (registerHandler db fn e pw salt newId).2
      = db ++ [{ id := newId, fullName := trimStr fn,
                 email := toLowerStr (trimStr e), password := bhash salt pw,
                 resetPasswordToken := none, resetPasswordExpire := none }] := by
    simp [registerHandler, hname, hrej, hfind]
  have hfind2 : findByEmail
      (db ++ [{ id := newId, fullName := trimStr fn,
                email := toLowerStr (trimStr e), password := bhash salt pw,
                resetPasswordToken := none, resetPasswordExpire := none }])
      (toLowerStr (trimStr e2))
      = some { id := newId, fullName := trimStr fn,
               email := toLowerStr (trimStr e), password := bhash salt pw,
               resetPasswordToken := none, resetPasswordExpire := none } := by
    rw [hcase]
    unfold findByEmail
    rw [List.find?_append]
    rw [show List.find? (fun u => u.email == toLowerStr (trimStr e)) db = none from hfind]
    simp
  constructor
  · rw [hsnd]
    simp only [registerHandler]
    rw [hname2, hpw2, hfind2]
    rfl
  · intro hc
    simp [errorHandler, hc]

/-- Witness for C8: register Jane twice, the second time with a case
variant of the email; and a concrete duplicate-key error. -/
theorem C8_duplicate_email_rejected_witness :
    ((registerHandler [] "Jane Doe".data "Jane@Test.com".data "Str0ng!Pass".data 4 1).1.status = 201
      ∧ toLowerStr (trimStr "jane@TEST.com ".data) = toLowerStr (trimStr "Jane@Test.com".data)
      ∧ (("Jane Doe".data : Str).isEmpty
          || decide ((trimStr "Jane Doe".data).length < 2)) = false
      ∧ registerPasswordReject "Other9$pw".data = false)
  ∧ (registerHandler (registerHandler [] "Jane Doe".data "Jane@Test.com".data "Str0ng!Pass".data 4 1).2
        "Jane Doe".data "jane@TEST.com ".data "Other9$pw".data 5 2
      = (⟨400, false, "User with this email already exists".data⟩,
         (registerHandler [] "Jane Doe".data "Jane@Test.com".data "Str0ng!Pass".data 4 1).2)
   ∧ ((JsError.mk (some 11000) none [] ).code = some 11000 →
      errorHandler (JsError.mk (some 11000) none []) = ⟨400, false, "Email already exists".data⟩)) :=
  ⟨⟨by decide, by decide, by decide, by decide⟩,
   C8_duplicate_email_rejected [] "Jane Doe".data "Jane@Test.com".data
     "Str0ng!Pass".data "Jane Doe".data "jane@TEST.com ".data "Other9$pw".data
     4 1 5 2 (JsError.mk (some 11000) none [])
     (by decide) (by decide) (by decide) (by decide)⟩

/-- The pairing invariant: the reset token and its expiry are both
present or both absent. -/
def pairOk (u : User) : Prop :=
  u.resetPasswordToken.isSome = u.resetPasswordExpire.isSome

instance (u : User) : Decidable (pairOk u) := by
  unfold pairOk
  infer_instance

/-- An `updateFirst` write whose update function establishes the
invariant preserves it across the collection. -/
theorem pairOk_updateFirst {p : User → Bool} {f : User → User} {l : List User}
    (h : ∀ u ∈ l, pairOk u) (hf : ∀ x, pairOk (f x)) :
    ∀ v ∈ updateFirst p f l, pairOk v := by
  intro v hv
  rcases mem_updateFirst hv with hm | ⟨u, _, _, rfl⟩
  · exact h v hm
  · exact hf u

/-- C9: every state-changing handler preserves the pairing invariant:
registration inserts a user with both fields absent, forgot-password
sets both in its single write, a successful reset (either variant)
clears both in its single write, and no operation touches only one of
the two fields. -/
theorem C9_reset_fields_paired (db : List User) (now : Nat)
    (fullName email password t tok : Str) (saltA saltB newId : Nat)
    (h : ∀ u ∈ db, pairOk u) :
    (∀ u ∈ (registerHandler db fullName email password saltA newId).2, pairOk u)
  ∧ (∀ u ∈ (forgotPasswordV1 db now email tok).2, pairOk u)
  ∧ (∀ u ∈ (forgotPasswordV2 db now email tok).2, pairOk u)
  ∧ (∀ u ∈ (resetPasswordV1 db now t password saltA saltB).2, pairOk u)
  ∧ (∀ u ∈ (resetPasswordV2 db now t password saltA).2, pairOk u) := by
  refine ⟨?_, ?_, ?_, ?_, ?_⟩
  · intro u hu
    simp only [registerHandler] at hu
    split at hu
    · exact h u hu
    · split at hu
      · exact h u hu
      · split at hu
        · exact h u hu
        · rcases List.mem_append.mp hu with h1 | h2
          · exact h u h1
          · rw [List.mem_singleton.mp h2]
            rfl
  · intro u hu
    simp only [forgotPasswordV1] at hu
    split at hu
    · exact h u hu
    · split at hu
      · exact h u hu
      · refine pairOk_updateFirst h (fun x => ?_) u hu
        rfl
  · intro u hu
    simp only [forgotPasswordV2] at hu
    split at hu
    · exact h u hu
    · split at hu
      · exact h u hu
      · refine pairOk_updateFirst h (fun x => ?_) u hu
        rfl
  · intro u hu
    simp only [resetPasswordV1] at hu
    split at hu
    · exact h u hu
    · split at hu
      · exact h u hu
      · split at hu
        · exact h u hu
        · refine pairOk_updateFirst h (fun x => ?_) u hu
          rfl
  · intro u hu
    simp only [resetPasswordV2] at hu
    split at hu
    · exact h u hu
    · split at hu
      · exact h u hu
      · refine pairOk_updateFirst h (fun x => ?_) u hu
        rfl

/-- Witness for C9 at the fixture collection. -/
theorem C9_reset_fields_paired_witness :
    (∀ u ∈ wDb, pairOk u)
  ∧ ((∀ u ∈ (registerHandler wDb "Jane Doe".data "a@b.com".data "Str0ng!Pass".data 4 9).2, pairOk u)
   ∧ (∀ u ∈ (forgotPasswordV1 wDb 50 "a@b.com".data "tk2".data).2, pairOk u)
   ∧ (∀ u ∈ (forgotPasswordV2 wDb 50 "a@b.com".data "tk2".data).2, pairOk u)
   ∧ (∀ u ∈ (resetPasswordV1 wDb 50 "tk".data "Str0ng!Pass".data 4 5).2, pairOk u)
   ∧ (∀ u ∈ (resetPasswordV2 wDb 50 "tk".data "Str0ng!Pass".data 4).2, pairOk u)) :=
  ⟨by decide,
   C9_reset_fields_paired wDb 50 "Jane Doe".data "a@b.com".data
     "Str0ng!Pass".data "tk".data "tk2".data 4 5 9 (by decide)⟩

end PassReset
